import Mathlib

/-!
Verification of the tax-calculation core of the Income Calculator
application (`src/app.py`).  The pure numeric pipeline of the source is
embedded shallowly over the rationals: every Python `float` value becomes
a `ℚ`, every `int` becomes a `ℤ`, and each calculator function of the
source is translated one-for-one into a Lean definition bearing the same
name.  The script-level computation of the "Income calculator" tab
(person and household outputs) is embedded as a family of top-level
functions of an explicit input record.
-/

namespace IncomeCalc

/-- Constant `SG_RATE = 0.12` from the source. -/
def SG_RATE : ℚ := 12 / 100

/-- Per-person inputs, mirroring the `person_a` / `person_b` session
dictionaries of the source. -/
structure Person where
  base_salary_annual : ℚ
  salary_includes_sg : Bool
  weeks_away : ℤ
  uplift_pct : ℚ
  uplift_sg_applies : Bool
  extra_concessional_annual : ℚ
  reportable_fringe_benefits_annual : ℚ
  deriving DecidableEq

/-- Household inputs, mirroring the `household` session dictionary
(the tax-year label and hospital-cover flag play no role in the
computations and are omitted). -/
structure Household where
  is_couple : Bool
  dependant_children : ℤ
  deriving DecidableEq

/-- Investment types offered by the input form. -/
inductive InvType where
  | investmentProperty
  | sharesETFs
  | cashTermDeposit
  | other
  deriving DecidableEq

/-- Per-investment inputs, mirroring the investment dictionaries of the
source (the id and name fields are display-only and omitted). -/
structure Investment where
  invType : InvType
  gross_income_annual : ℚ
  interest_deductible_annual : ℚ
  other_deductible_annual : ℚ
  rent_per_week : ℚ
  vacancy_weeks : ℤ
  ownership_a_pct : ℚ
  deriving DecidableEq

/-- Source function `calc_uplift_annual`: remote-uplift dollars per year.  The percent
is clamped non-negative and the week count clamped to `[0, 52]`. -/
def calc_uplift_annual (base_salary_annual : ℚ) (uplift_pct : ℚ)
    (weeks_away : ℤ) : ℚ :=
  let pct := max 0 uplift_pct / 100
  let w : ℤ := min (max weeks_away 0) 52
  base_salary_annual * pct * ((w : ℚ) / 52)

/-- Source function `calc_base_ote_annual`: ordinary-time-equivalent base salary; when
the stated salary is a package including SG the contribution is backed
out by dividing by `1 + SG_RATE`. -/
def calc_base_ote_annual (base_salary_annual : ℚ)
    (salary_includes_sg : Bool) : ℚ :=
  if salary_includes_sg ∧ (0 : ℚ) < 1 + SG_RATE then
    base_salary_annual / (1 + SG_RATE)
  else
    base_salary_annual

/-- Source function `calc_sg_annual`: superannuation-guarantee contribution. -/
def calc_sg_annual (base_salary_annual : ℚ) (salary_includes_sg : Bool)
    (uplift_annual : ℚ) (uplift_sg_applies : Bool) : ℚ :=
  let base_ote := calc_base_ote_annual base_salary_annual salary_includes_sg
  let ote := base_ote + (if uplift_sg_applies then uplift_annual else 0)
  max 0 ote * SG_RATE

/-- Source function `calc_property_gross_income_annual`: weekly rent times weeks let. -/
def calc_property_gross_income_annual (rent_per_week : ℚ)
    (vacancy_weeks : ℤ) : ℚ :=
  let weeks_rented : ℤ := max 0 (52 - vacancy_weeks)
  rent_per_week * (weeks_rented : ℚ)

/-- Gross income of one investment: for a property it is recomputed from
rent and vacancy, otherwise the stored gross value is used (body of the
loop of `_household_investment_splits`). -/
def invGross (inv : Investment) : ℚ :=
  match inv.invType with
  | .investmentProperty =>
      calc_property_gross_income_annual inv.rent_per_week inv.vacancy_weeks
  | _ => inv.gross_income_annual

/-- Net taxable position of one investment. -/
def invNetTaxable (inv : Investment) : ℚ :=
  invGross inv - inv.interest_deductible_annual - inv.other_deductible_annual

/-- Ownership fraction of person A in one investment: clamped to `[0,1]`
in couple mode, forced to `1` in single mode. -/
def aPct (inv : Investment) (is_couple : Bool) : ℚ :=
  if is_couple then min (max (inv.ownership_a_pct / 100) 0) 1 else 1

/-- Ownership fraction of person B: the complement in couple mode, `0`
in single mode. -/
def bPct (inv : Investment) (is_couple : Bool) : ℚ :=
  if is_couple then 1 - aPct inv is_couple else 0

/-- The aggregate record returned by `_household_investment_splits`. -/
structure Splits where
  gross_total : ℚ
  deductions_total : ℚ
  net_taxable_total : ℚ
  a_gross : ℚ
  b_gross : ℚ
  a_net_taxable : ℚ
  b_net_taxable : ℚ
  deriving DecidableEq

/-- The all-zero accumulator the loop of
`_household_investment_splits` starts from. -/
def emptySplits : Splits := ⟨0, 0, 0, 0, 0, 0, 0⟩

/-- One iteration of the loop of `_household_investment_splits`. -/
def addInv (is_couple : Bool) (s : Splits) (inv : Investment) : Splits :=
  let gross := invGross inv
  let net := invNetTaxable inv
  let ap := aPct inv is_couple
  let bp := bPct inv is_couple
  { gross_total := s.gross_total + gross
    deductions_total :=
      s.deductions_total +
        (inv.interest_deductible_annual + inv.other_deductible_annual)
    net_taxable_total := s.net_taxable_total + net
    a_gross := s.a_gross + gross * ap
    b_gross := s.b_gross + gross * bp
    a_net_taxable := s.a_net_taxable + net * ap
    b_net_taxable := s.b_net_taxable + net * bp }

/-- Source function `_household_investment_splits`: per-owner and household investment
aggregates. -/
def household_investment_splits (investments : List Investment)
    (is_couple : Bool) : Splits :=
  investments.foldl (addInv is_couple) emptySplits

/-- Bracket formula of the `x <= 18200` branch of
`calc_income_tax_resident_annual`. -/
def taxBracket0 (_x : ℚ) : ℚ := 0

/-- Bracket formula of the `x <= 45000` branch. -/
def taxBracket1 (x : ℚ) : ℚ := (x - 18200) * (16 / 100)

/-- Bracket formula of the `x <= 135000` branch. -/
def taxBracket2 (x : ℚ) : ℚ :=
  (45000 - 18200) * (16 / 100) + (x - 45000) * (30 / 100)

/-- Bracket formula of the `x <= 190000` branch. -/
def taxBracket3 (x : ℚ) : ℚ :=
  (45000 - 18200) * (16 / 100) + (135000 - 45000) * (30 / 100) +
    (x - 135000) * (37 / 100)

/-- Bracket formula of the final (`x > 190000`) branch. -/
def taxBracket4 (x : ℚ) : ℚ :=
  (45000 - 18200) * (16 / 100) + (135000 - 45000) * (30 / 100) +
    (190000 - 135000) * (37 / 100) + (x - 190000) * (45 / 100)

/-- Source function `calc_income_tax_resident_annual`: resident income tax (ex Medicare)
under the FY2025-26 bracket table of the source. -/
def calc_income_tax_resident_annual (taxable_income : ℚ) : ℚ :=
  let x := max 0 taxable_income
  let tax :=
    if x ≤ 18200 then taxBracket0 x
    else if x ≤ 45000 then taxBracket1 x
    else if x ≤ 135000 then taxBracket2 x
    else if x ≤ 190000 then taxBracket3 x
    else taxBracket4 x
  max 0 tax

/-- Source function `calc_medicare_levy_amount_from_income`: zero below the lower
threshold, ten-cents-per-dollar phase-in between the thresholds, two
percent of the levy base at or above the upper threshold. -/
def calc_medicare_levy_amount_from_income (income_for_thresholds : ℚ)
    (levy_base_income : ℚ) (lower upper : ℚ) : ℚ :=
  let inc := max 0 income_for_thresholds
  let base := max 0 levy_base_income
  if inc ≤ lower then 0
  else if inc < upper then max 0 ((1 / 10) * (inc - lower))
  else (2 / 100) * base

/-- Individual lower Medicare threshold (FY2025/26). -/
def IND_LOWER : ℚ := 27222

/-- Individual upper Medicare threshold. -/
def IND_UPPER : ℚ := 34027

/-- Family lower Medicare threshold base. -/
def FAM_LOWER : ℚ := 45907

/-- Family upper Medicare threshold base. -/
def FAM_UPPER : ℚ := 57383

/-- Per-child increment of the family lower threshold. -/
def CHILD_INC_LOWER : ℚ := 4216

/-- Per-child increment of the family upper threshold. -/
def CHILD_INC_UPPER : ℚ := 5270

/-- Family lower threshold with dependent-child increments
(`fam_lower` of `calc_medicare_levy_split`). -/
def famLower (children : ℤ) : ℚ :=
  FAM_LOWER + CHILD_INC_LOWER * ((max 0 children : ℤ) : ℚ)

/-- Family upper threshold with dependent-child increments. -/
def famUpper (children : ℤ) : ℚ :=
  FAM_UPPER + CHILD_INC_UPPER * ((max 0 children : ℤ) : ℚ)

/-- Source function `calc_medicare_levy_split`: family-aware Medicare levy, returned as
the pair (person A's levy, person B's levy). -/
def calc_medicare_levy_split (is_couple : Bool) (children : ℤ)
    (pa_taxable pb_taxable pa_rfb pb_rfb : ℚ) : ℚ × ℚ :=
  let a_tax := max 0 pa_taxable
  let b_tax := max 0 pb_taxable
  let a_r := max 0 pa_rfb
  let b_r := max 0 pb_rfb
  if is_couple then
    let fam_lower := famLower children
    let fam_upper := famUpper children
    let fam_income_for_thresholds := (a_tax + a_r) + (b_tax + b_r)
    let fam_taxable_base := a_tax + b_tax
    let total_levy := calc_medicare_levy_amount_from_income
      fam_income_for_thresholds fam_taxable_base fam_lower fam_upper
    if fam_taxable_base ≤ 0 then (0, 0)
    else
      let a_share := a_tax / fam_taxable_base
      let b_share := b_tax / fam_taxable_base
      (total_levy * a_share, total_levy * b_share)
  else
    let income_for_thresholds_a := a_tax + a_r
    let a_levy := calc_medicare_levy_amount_from_income
      income_for_thresholds_a a_tax IND_LOWER IND_UPPER
    (a_levy, 0)

/-- Source function `calc_div293_tax`: Division 293 additional tax. -/
def calc_div293_tax (taxable_income reportable_fringe_benefits
    concessional_contributions : ℚ) : ℚ :=
  let threshold : ℚ := 250000
  let ti := max 0 taxable_income
  let rfb := max 0 reportable_fringe_benefits
  let cc := max 0 concessional_contributions
  let div293_income := ti + rfb + cc
  let excess := max 0 (div293_income - threshold)
  (15 / 100) * min cc excess

/-- Script value `pa_base_ote` of the calculator tab. -/
def paBaseOte (pa : Person) : ℚ :=
  calc_base_ote_annual pa.base_salary_annual pa.salary_includes_sg

/-- Script value `pb_base_ote`: guarded to `0` in single mode. -/
def pbBaseOte (hh : Household) (pb : Person) : ℚ :=
  if hh.is_couple then
    calc_base_ote_annual pb.base_salary_annual pb.salary_includes_sg
  else 0

/-- Script value `pa_uplift`. -/
def paUplift (pa : Person) : ℚ :=
  calc_uplift_annual pa.base_salary_annual pa.uplift_pct pa.weeks_away

/-- Script value `pb_uplift`: guarded to `0` in single mode. -/
def pbUplift (hh : Household) (pb : Person) : ℚ :=
  if hh.is_couple then
    calc_uplift_annual pb.base_salary_annual pb.uplift_pct pb.weeks_away
  else 0

/-- Script value `pa_total_salary`. -/
def paTotalSalary (pa : Person) : ℚ := paBaseOte pa + paUplift pa

/-- Script value `pb_total_salary`: guarded to `0` in single mode. -/
def pbTotalSalary (hh : Household) (pb : Person) : ℚ :=
  if hh.is_couple then pbBaseOte hh pb + pbUplift hh pb else 0

/-- Script value `splits` of the calculator tab. -/
def splitsOf (hh : Household) (investments : List Investment) : Splits :=
  household_investment_splits investments hh.is_couple

/-- Script value `pa_taxable_income`: total salary plus allocated net taxable
investment position. -/
def paTaxableIncome (hh : Household) (pa : Person)
    (investments : List Investment) : ℚ :=
  paTotalSalary pa + (splitsOf hh investments).a_net_taxable

/-- Script value `pb_taxable_income`. -/
def pbTaxableIncome (hh : Household) (pb : Person)
    (investments : List Investment) : ℚ :=
  pbTotalSalary hh pb + (splitsOf hh investments).b_net_taxable

/-- Script value `pa_sg`. -/
def paSg (pa : Person) : ℚ :=
  calc_sg_annual pa.base_salary_annual pa.salary_includes_sg (paUplift pa)
    pa.uplift_sg_applies

/-- Script value `pb_sg`: guarded to `0` in single mode. -/
def pbSg (hh : Household) (pb : Person) : ℚ :=
  if hh.is_couple then
    calc_sg_annual pb.base_salary_annual pb.salary_includes_sg
      (pbUplift hh pb) pb.uplift_sg_applies
  else 0

/-- Script value `pa_extra_cc`. -/
def paExtraCc (pa : Person) : ℚ := pa.extra_concessional_annual

/-- Script value `pb_extra_cc`: guarded to `0` in single mode. -/
def pbExtraCc (hh : Household) (pb : Person) : ℚ :=
  if hh.is_couple then pb.extra_concessional_annual else 0

/-- Script value `pa_concessional_total = max(0, pa_sg + pa_extra_cc)`. -/
def paConcessionalTotal (pa : Person) : ℚ :=
  max 0 (paSg pa + paExtraCc pa)

/-- Script value `pb_concessional_total`: guarded to `0` in single mode. -/
def pbConcessionalTotal (hh : Household) (pb : Person) : ℚ :=
  if hh.is_couple then max 0 (pbSg hh pb + pbExtraCc hh pb) else 0

/-- Script value `pa_super_tax = 0.15 * pa_concessional_total`. -/
def paSuperTax (pa : Person) : ℚ := (15 / 100) * paConcessionalTotal pa

/-- Script value `pb_super_tax`: guarded to `0` in single mode. -/
def pbSuperTax (hh : Household) (pb : Person) : ℚ :=
  if hh.is_couple then (15 / 100) * pbConcessionalTotal hh pb else 0

/-- Script value `pa_rfb`. -/
def paRfb (pa : Person) : ℚ := pa.reportable_fringe_benefits_annual

/-- Script value `pb_rfb`: guarded to `0` in single mode. -/
def pbRfb (hh : Household) (pb : Person) : ℚ :=
  if hh.is_couple then pb.reportable_fringe_benefits_annual else 0

/-- The six-tuple returned by `_compute_tax_components`. -/
structure TaxComponents where
  paIncomeTax : ℚ
  pbIncomeTax : ℚ
  paMedicare : ℚ
  pbMedicare : ℚ
  paDiv293 : ℚ
  pbDiv293 : ℚ
  deriving DecidableEq

/-- Source function `_compute_tax_components`: income tax, Medicare levy and Division
293 tax for both persons at the given pair of taxable incomes (the other
inputs are closed over exactly as in the source). -/
def compute_tax_components (hh : Household) (pa pb : Person)
    (pa_taxable_local pb_taxable_local : ℚ) : TaxComponents :=
  let pa_income_tax := calc_income_tax_resident_annual pa_taxable_local
  let pb_income_tax :=
    if hh.is_couple then calc_income_tax_resident_annual pb_taxable_local
    else 0
  let medicare := calc_medicare_levy_split hh.is_couple
    hh.dependant_children pa_taxable_local pb_taxable_local (paRfb pa)
    (pbRfb hh pb)
  let pa_div293 :=
    calc_div293_tax pa_taxable_local (paRfb pa) (paConcessionalTotal pa)
  let pb_div293 :=
    if hh.is_couple then
      calc_div293_tax pb_taxable_local (pbRfb hh pb)
        (pbConcessionalTotal hh pb)
    else 0
  ⟨pa_income_tax, pb_income_tax, medicare.1, medicare.2, pa_div293,
    pb_div293⟩

/-- The actual-scenario tax components. -/
def actualComponents (hh : Household) (pa pb : Person)
    (investments : List Investment) : TaxComponents :=
  compute_tax_components hh pa pb (paTaxableIncome hh pa investments)
    (pbTaxableIncome hh pb investments)

/-- Script value `pa_total_tax = pa_income_tax + pa_medicare + pa_div293`. -/
def paTotalTax (hh : Household) (pa pb : Person)
    (investments : List Investment) : ℚ :=
  let c := actualComponents hh pa pb investments
  c.paIncomeTax + c.paMedicare + c.paDiv293

/-- Script value `pb_total_tax`: guarded to `0` in single mode. -/
def pbTotalTax (hh : Household) (pa pb : Person)
    (investments : List Investment) : ℚ :=
  if hh.is_couple then
    let c := actualComponents hh pa pb investments
    c.pbIncomeTax + c.pbMedicare + c.pbDiv293
  else 0

/-- Script value `pa_taxable_no_losses`: counterfactual taxable income with person
A's investment losses suppressed. -/
def paTaxableNoLosses (hh : Household) (pa : Person)
    (investments : List Investment) : ℚ :=
  paTotalSalary pa + max 0 (splitsOf hh investments).a_net_taxable

/-- Script value `pb_taxable_no_losses`. -/
def pbTaxableNoLosses (hh : Household) (pb : Person)
    (investments : List Investment) : ℚ :=
  pbTotalSalary hh pb + max 0 (splitsOf hh investments).b_net_taxable

/-- The loss-free counterfactual tax components. -/
def noLossComponents (hh : Household) (pa pb : Person)
    (investments : List Investment) : TaxComponents :=
  compute_tax_components hh pa pb (paTaxableNoLosses hh pa investments)
    (pbTaxableNoLosses hh pb investments)

/-- Person A's counterfactual total tax
(`pa_income_tax_nl + pa_medicare_nl + pa_div293_nl`). -/
def paCounterfactualTotalTax (hh : Household) (pa pb : Person)
    (investments : List Investment) : ℚ :=
  let c := noLossComponents hh pa pb investments
  c.paIncomeTax + c.paMedicare + c.paDiv293

/-- Person B's counterfactual total tax. -/
def pbCounterfactualTotalTax (hh : Household) (pa pb : Person)
    (investments : List Investment) : ℚ :=
  let c := noLossComponents hh pa pb investments
  c.pbIncomeTax + c.pbMedicare + c.pbDiv293

/-- Script value `pa_ng_benefit`: person A's negative-gearing benefit. -/
def paNgBenefit (hh : Household) (pa pb : Person)
    (investments : List Investment) : ℚ :=
  max 0 (paCounterfactualTotalTax hh pa pb investments -
    paTotalTax hh pa pb investments)

/-- Script value `pb_ng_benefit`: guarded to `0` in single mode. -/
def pbNgBenefit (hh : Household) (pa pb : Person)
    (investments : List Investment) : ℚ :=
  if hh.is_couple then
    max 0 (pbCounterfactualTotalTax hh pa pb investments -
      (let c := actualComponents hh pa pb investments
       c.pbIncomeTax + c.pbMedicare + c.pbDiv293))
  else 0

/-- Script value `household_total_salary`. -/
def householdTotalSalary (hh : Household) (pa pb : Person) : ℚ :=
  paTotalSalary pa + (if hh.is_couple then pbTotalSalary hh pb else 0)

/-- Script value `household_super_total`. -/
def householdSuperTotal (hh : Household) (pa pb : Person) : ℚ :=
  (paSg pa + paExtraCc pa) +
    (if hh.is_couple then pbSg hh pb + pbExtraCc hh pb else 0)

/-- Script value `pa_after_tax_income`. -/
def paAfterTaxIncome (hh : Household) (pa pb : Person)
    (investments : List Investment) : ℚ :=
  max 0 (paTotalSalary pa - paTotalTax hh pa pb investments)

/-- Script value `pb_after_tax_income`: guarded to `0` in single mode. -/
def pbAfterTaxIncome (hh : Household) (pa pb : Person)
    (investments : List Investment) : ℚ :=
  if hh.is_couple then
    max 0 (pbTotalSalary hh pb - pbTotalTax hh pa pb investments)
  else 0

/-- Script value `household_pay`: after-tax incomes plus gross investment income. -/
def householdPay (hh : Household) (pa pb : Person)
    (investments : List Investment) : ℚ :=
  paAfterTaxIncome hh pa pb investments +
    pbAfterTaxIncome hh pa pb investments +
    (splitsOf hh investments).gross_total

/-- Script value `household_ng_benefit`. -/
def householdNgBenefit (hh : Household) (pa pb : Person)
    (investments : List Investment) : ℚ :=
  paNgBenefit hh pa pb investments +
    (if hh.is_couple then pbNgBenefit hh pa pb investments else 0)

/-- All numeric outputs of one calculation pass, gathered in one
record. -/
structure Outputs where
  pa_total_salary : ℚ
  pb_total_salary : ℚ
  pa_taxable_income : ℚ
  pb_taxable_income : ℚ
  pa_sg : ℚ
  pb_sg : ℚ
  pa_concessional_total : ℚ
  pb_concessional_total : ℚ
  pa_super_tax : ℚ
  pb_super_tax : ℚ
  pa_income_tax : ℚ
  pb_income_tax : ℚ
  pa_medicare : ℚ
  pb_medicare : ℚ
  pa_div293 : ℚ
  pb_div293 : ℚ
  pa_total_tax : ℚ
  pb_total_tax : ℚ
  pa_ng_benefit : ℚ
  pb_ng_benefit : ℚ
  household_total_salary : ℚ
  household_super_total : ℚ
  pa_after_tax_income : ℚ
  pb_after_tax_income : ℚ
  household_pay : ℚ
  household_ng_benefit : ℚ
  inv_splits : Splits
  deriving DecidableEq

/-- One full calculation pass: every output of the calculator and
household tabs as a function of the raw inputs. -/
def allOutputs (hh : Household) (pa pb : Person)
    (investments : List Investment) : Outputs :=
  let c := actualComponents hh pa pb investments
  { pa_total_salary := paTotalSalary pa
    pb_total_salary := pbTotalSalary hh pb
    pa_taxable_income := paTaxableIncome hh pa investments
    pb_taxable_income := pbTaxableIncome hh pb investments
    pa_sg := paSg pa
    pb_sg := pbSg hh pb
    pa_concessional_total := paConcessionalTotal pa
    pb_concessional_total := pbConcessionalTotal hh pb
    pa_super_tax := paSuperTax pa
    pb_super_tax := pbSuperTax hh pb
    pa_income_tax := c.paIncomeTax
    pb_income_tax := c.pbIncomeTax
    pa_medicare := c.paMedicare
    pb_medicare := c.pbMedicare
    pa_div293 := c.paDiv293
    pb_div293 := c.pbDiv293
    pa_total_tax := paTotalTax hh pa pb investments
    pb_total_tax := pbTotalTax hh pa pb investments
    pa_ng_benefit := paNgBenefit hh pa pb investments
    pb_ng_benefit := pbNgBenefit hh pa pb investments
    household_total_salary := householdTotalSalary hh pa pb
    household_super_total := householdSuperTotal hh pa pb
    pa_after_tax_income := paAfterTaxIncome hh pa pb investments
    pb_after_tax_income := pbAfterTaxIncome hh pa pb investments
    household_pay := householdPay hh pa pb investments
    household_ng_benefit := householdNgBenefit hh pa pb investments
    inv_splits := splitsOf hh investments }

/-- Formula for the Division 293 tax written from the specification's
words (raw, unfloored sum): Division-293 income equals the sum of the
three inputs, the excess is `max 0 (income - 250000)`, and the tax is
`0.15 * min contributions excess`. -/
def div293SpecRawSum (taxable_income reportable_fringe_benefits
    concessional_contributions : ℚ) : ℚ :=
  (15 / 100) * min concessional_contributions
    (max 0 ((taxable_income + reportable_fringe_benefits +
      concessional_contributions) - 250000))

/-- Household total Medicare levy of couple mode: the levy computed once
on the combined test-income against the family thresholds (the
`total_levy` value of `calc_medicare_levy_split`). -/
def familyTotalLevy (children : ℤ) (pa_taxable pb_taxable pa_rfb
    pb_rfb : ℚ) : ℚ :=
  calc_medicare_levy_amount_from_income
    ((max 0 pa_taxable + max 0 pa_rfb) + (max 0 pb_taxable + max 0 pb_rfb))
    (max 0 pa_taxable + max 0 pb_taxable) (famLower children)
    (famUpper children)

/-- Example couple household with no dependent children. -/
def hhCoupleEx : Household := ⟨true, 0⟩

/-- Example single household. -/
def hhSingleEx : Household := ⟨false, 0⟩

/-- Example person on a 30,000 salary with all other inputs zero. -/
def personEx30k : Person := ⟨30000, false, 0, 0, false, 0, 0⟩

/-- Example person on a 26,000 salary with all other inputs zero. -/
def personEx26k : Person := ⟨26000, false, 0, 0, false, 0, 0⟩

/-- Example person with every input nonzero. -/
def personExAlt : Person := ⟨123456, true, 10, 50, true, 2000, 7000⟩

/-- Example investment owned entirely by person B running a 12,000
loss. -/
def invExLossB : Investment := ⟨.other, 0, 12000, 0, 0, 0, 0⟩

section Lemmas

/-- The two ownership fractions of any investment always sum to one. -/
lemma aPct_add_bPct (inv : Investment) (c : Bool) :
    aPct inv c + bPct inv c = 1 := by
  cases c <;> simp [aPct, bPct]

/-- Allocating one investment preserves the difference between the
per-owner sums and the household totals. -/
lemma foldl_addInv_alloc (c : Bool) (invs : List Investment) :
    ∀ s : Splits,
      ((invs.foldl (addInv c) s).a_gross +
          (invs.foldl (addInv c) s).b_gross -
          (invs.foldl (addInv c) s).gross_total =
        s.a_gross + s.b_gross - s.gross_total) ∧
      ((invs.foldl (addInv c) s).a_net_taxable +
          (invs.foldl (addInv c) s).b_net_taxable -
          (invs.foldl (addInv c) s).net_taxable_total =
        s.a_net_taxable + s.b_net_taxable - s.net_taxable_total) := by
  induction invs with
  | nil => intro s; simp
  | cons inv rest ih =>
    intro s
    have h := ih (addInv c s inv)
    have hg : invGross inv * aPct inv c + invGross inv * bPct inv c =
        invGross inv := by
      rw [← mul_add, aPct_add_bPct, mul_one]
    have hn : invNetTaxable inv * aPct inv c +
        invNetTaxable inv * bPct inv c = invNetTaxable inv := by
      rw [← mul_add, aPct_add_bPct, mul_one]
    rw [List.foldl_cons]
    constructor
    · rw [h.1]; simp only [addInv]; linarith
    · rw [h.2]; simp only [addInv]; linarith

/-- In single mode the loop never adds anything to person B's
allocations. -/
lemma foldl_addInv_single_b (invs : List Investment) :
    ∀ s : Splits,
      (invs.foldl (addInv false) s).b_gross = s.b_gross ∧
      (invs.foldl (addInv false) s).b_net_taxable = s.b_net_taxable := by
  induction invs with
  | nil => intro s; simp
  | cons inv rest ih =>
    intro s
    have h := ih (addInv false s inv)
    rw [List.foldl_cons]
    constructor
    · rw [h.1]; simp [addInv, bPct]
    · rw [h.2]; simp [addInv, bPct]

/-- In single mode person B's investment allocations are zero. -/
lemma splits_single_b (invs : List Investment) :
    (household_investment_splits invs false).b_gross = 0 ∧
    (household_investment_splits invs false).b_net_taxable = 0 := by
  have h := foldl_addInv_single_b invs emptySplits
  exact ⟨h.1, h.2⟩

/-- The resident income-tax function is monotone. -/
lemma calc_income_tax_mono (x1 x2 : ℚ) (h : x1 ≤ x2) :
    calc_income_tax_resident_annual x1 ≤
      calc_income_tax_resident_annual x2 := by
  have hy : max 0 x1 ≤ max 0 x2 := max_le_max le_rfl h
  simp only [calc_income_tax_resident_annual, taxBracket0, taxBracket1,
    taxBracket2, taxBracket3, taxBracket4]
  apply max_le_max le_rfl
  generalize hg1 : max (0 : ℚ) x1 = y1 at hy
  generalize hg2 : max (0 : ℚ) x2 = y2 at hy
  split_ifs <;> linarith

/-- Phase behaviour of the Medicare levy for any threshold pair with
nonnegative lower threshold. -/
lemma medicare_levy_phases (lower upper t b : ℚ) (hl : 0 ≤ lower)
    (hlu : lower < upper) (hb : 0 ≤ b) :
    (t ≤ lower → calc_medicare_levy_amount_from_income t b lower upper = 0) ∧
    (lower < t → t < upper →
      calc_medicare_levy_amount_from_income t b lower upper =
        (1 / 10) * (t - lower)) ∧
    (upper ≤ t →
      calc_medicare_levy_amount_from_income t b lower upper =
        (2 / 100) * b) := by
  refine ⟨?_, ?_, ?_⟩
  · intro ht
    have : max 0 t ≤ lower := max_le hl ht
    simp [calc_medicare_levy_amount_from_income, this]
  · intro h1 h2
    have hmt : max 0 t = t := max_eq_right (le_of_lt (lt_of_le_of_lt hl h1))
    have hpos : (0 : ℚ) ≤ (1 / 10) * (t - lower) := by
      have : (0 : ℚ) ≤ t - lower := by linarith
      positivity
    simp only [calc_medicare_levy_amount_from_income, hmt]
    rw [if_neg (not_le.mpr h1), if_pos h2]
    exact max_eq_right hpos
  · intro ht
    have hmt : max 0 t = t :=
      max_eq_right (le_trans hl (le_trans (le_of_lt hlu) ht))
    simp only [calc_medicare_levy_amount_from_income, hmt]
    rw [if_neg (not_le.mpr (lt_of_lt_of_le hlu ht)),
      if_neg (not_lt.mpr ht)]
    rw [max_eq_right hb]

/-- The family lower threshold is nonnegative for every child count. -/
lemma famLower_nonneg (children : ℤ) : 0 ≤ famLower children := by
  have hm : (0 : ℚ) ≤ ((max 0 children : ℤ) : ℚ) := by
    exact_mod_cast le_max_left (0 : ℤ) children
  simp only [famLower, FAM_LOWER, CHILD_INC_LOWER]
  nlinarith

/-- The family lower threshold is below the family upper threshold for
every child count. -/
lemma famLower_lt_famUpper (children : ℤ) :
    famLower children < famUpper children := by
  have hm : (0 : ℚ) ≤ ((max 0 children : ℤ) : ℚ) := by
    exact_mod_cast le_max_left (0 : ℤ) children
  simp only [famLower, famUpper, FAM_LOWER, FAM_UPPER, CHILD_INC_LOWER,
    CHILD_INC_UPPER]
  nlinarith

end Lemmas

/-- C3: the income-tax function is monotonically non-decreasing in
taxable income, and at every bracket threshold (18200, 45000, 135000,
190000) the bracket formula at or below the threshold agrees with the
bracket formula above it, so the function is continuous there. -/
theorem C3_income_tax_monotone_and_continuous :
    (∀ x1 x2 : ℚ, x1 ≤ x2 →
      calc_income_tax_resident_annual x1 ≤
        calc_income_tax_resident_annual x2) ∧
    taxBracket0 18200 = taxBracket1 18200 ∧
    taxBracket1 45000 = taxBracket2 45000 ∧
    taxBracket2 135000 = taxBracket3 135000 ∧
    taxBracket3 190000 = taxBracket4 190000 := by
  refine ⟨calc_income_tax_mono, ?_, ?_, ?_, ?_⟩ <;>
    norm_num [taxBracket0, taxBracket1, taxBracket2, taxBracket3,
      taxBracket4]

/-- Witness for C3 at the concrete pair 3 ≤ 100000. -/
theorem C3_witness :
    calc_income_tax_resident_annual 3 ≤
      calc_income_tax_resident_annual 100000 :=
  C3_income_tax_monotone_and_continuous.1 3 100000 (by norm_num)

/-- C4: for the threshold pair of either regime (individual constants,
or family base constants plus per-child increments) the Medicare levy is
0 at or below the lower threshold, `0.10 * (test-income - lower)`
strictly between the thresholds, and exactly `0.02 * levy-base` (the
taxable income, excluding fringe benefits) at or above the upper
threshold. -/
theorem C4_medicare_levy_phase_structure :
    ∀ (children : ℤ) (t b : ℚ), 0 ≤ b →
      ((t ≤ IND_LOWER →
          calc_medicare_levy_amount_from_income t b IND_LOWER IND_UPPER
            = 0) ∧
        (IND_LOWER < t → t < IND_UPPER →
          calc_medicare_levy_amount_from_income t b IND_LOWER IND_UPPER
            = (1 / 10) * (t - IND_LOWER)) ∧
        (IND_UPPER ≤ t →
          calc_medicare_levy_amount_from_income t b IND_LOWER IND_UPPER
            = (2 / 100) * b)) ∧
      ((t ≤ famLower children →
          calc_medicare_levy_amount_from_income t b (famLower children)
            (famUpper children) = 0) ∧
        (famLower children < t → t < famUpper children →
          calc_medicare_levy_amount_from_income t b (famLower children)
            (famUpper children) = (1 / 10) * (t - famLower children)) ∧
        (famUpper children ≤ t →
          calc_medicare_levy_amount_from_income t b (famLower children)
            (famUpper children) = (2 / 100) * b)) := by
  intro children t b hb
  constructor
  · exact medicare_levy_phases IND_LOWER IND_UPPER t b
      (by norm_num [IND_LOWER]) (by norm_num [IND_LOWER, IND_UPPER]) hb
  · exact medicare_levy_phases (famLower children) (famUpper children) t b
      (famLower_nonneg children) (famLower_lt_famUpper children) hb

/-- Witness for C4: the individual phase-in zone at test-income 30000
with taxable income 30000 yields a levy of 277.8. -/
theorem C4_witness :
    calc_medicare_levy_amount_from_income 30000 30000 IND_LOWER IND_UPPER
      = (1 / 10) * (30000 - IND_LOWER) :=
  (C4_medicare_levy_phase_structure 0 30000 30000
    (by norm_num)).1.2.1 (by norm_num [IND_LOWER]) (by norm_num [IND_UPPER])

/-- C6 (amended): the Division 293 tax uses the three inputs each
floored at zero; on the floored inputs the Division 293 income is their
sum, the excess is `max 0 (income - 250000)`, the tax is
`0.15 * min contributions excess`, never exceeds 0.15 times the floored
contributions, and evaluates to 4500 on the example
(260000, 0, 30000). -/
theorem C6_div293_structure :
    (∀ ti rfb cc : ℚ,
      calc_div293_tax ti rfb cc =
        (15 / 100) * min (max 0 cc)
          (max 0 ((max 0 ti + max 0 rfb + max 0 cc) - 250000)) ∧
      calc_div293_tax ti rfb cc ≤ (15 / 100) * max 0 cc) ∧
    calc_div293_tax 260000 0 30000 = 4500 := by
  constructor
  · intro ti rfb cc
    constructor
    · rfl
    · simp only [calc_div293_tax]
      exact mul_le_mul_of_nonneg_left (min_le_left _ _) (by norm_num)
  · norm_num [calc_div293_tax]

/-- C6 counterexample: at taxable income -10 (fringe benefits 0,
contributions 300000) the code's tax differs from the value of the
specification's unfloored formula, so the claim's "for any taxable
income the Division-293 income equals their sum" reading is false. -/
theorem C6_counterexample :
    calc_div293_tax (-10) 0 300000 ≠ div293SpecRawSum (-10) 0 300000 := by
  norm_num [calc_div293_tax, div293SpecRawSum]

/-- C7: for every investment and every ownership percentage the amounts
allocated to the two owners sum to the unallocated total (gross and net
separately, in couple or single mode), and the per-owner aggregate
totals sum to the household totals. -/
theorem C7_ownership_allocation_sums :
    ∀ (investments : List Investment) (is_couple : Bool),
      (∀ inv : Investment,
        invGross inv * aPct inv is_couple +
            invGross inv * bPct inv is_couple = invGross inv ∧
        invNetTaxable inv * aPct inv is_couple +
            invNetTaxable inv * bPct inv is_couple = invNetTaxable inv) ∧
      (household_investment_splits investments is_couple).a_gross +
          (household_investment_splits investments is_couple).b_gross =
        (household_investment_splits investments is_couple).gross_total ∧
      (household_investment_splits investments is_couple).a_net_taxable +
          (household_investment_splits investments
            is_couple).b_net_taxable =
        (household_investment_splits investments
          is_couple).net_taxable_total := by
  intro investments is_couple
  have h := foldl_addInv_alloc is_couple investments emptySplits
  refine ⟨?_, ?_, ?_⟩
  · intro inv
    constructor
    · rw [← mul_add, aPct_add_bPct, mul_one]
    · rw [← mul_add, aPct_add_bPct, mul_one]
  · have h1 := h.1
    unfold household_investment_splits
    simp only [emptySplits] at h1 ⊢
    linarith
  · have h2 := h.2
    unfold household_investment_splits
    simp only [emptySplits] at h2 ⊢
    linarith

/-- C8: the income tax at 100000 is exactly 20788, and every negative
input yields the same result as input 0. -/
theorem C8_income_tax_example_and_negative_input :
    calc_income_tax_resident_annual 100000 = 20788 ∧
    ∀ x : ℚ, x < 0 →
      calc_income_tax_resident_annual x =
        calc_income_tax_resident_annual 0 := by
  constructor
  · norm_num [calc_income_tax_resident_annual, taxBracket2]
  · intro x hx
    have hm : max 0 x = 0 := max_eq_left (le_of_lt hx)
    simp [calc_income_tax_resident_annual, hm]

/-- Witness for C8 at the concrete negative input -1. -/
theorem C8_witness :
    calc_income_tax_resident_annual (-1) =
      calc_income_tax_resident_annual 0 :=
  C8_income_tax_example_and_negative_input.2 (-1) (by norm_num)

/-- C5: for every person with a nonnegative extra-contribution input,
the guarantee contribution is `max 0 (OTE base + uplift when the SG
flag is set) * SG_RATE` with `SG_RATE = 0.12`, and the total
concessional contributions equal the guarantee contribution plus the
extra contribution floored at zero. -/
theorem C5_sg_and_concessional_total :
    SG_RATE = 12 / 100 ∧
    ∀ p : Person, 0 ≤ p.extra_concessional_annual →
      paSg p =
        max 0 (calc_base_ote_annual p.base_salary_annual
            p.salary_includes_sg +
          (if p.uplift_sg_applies then paUplift p else 0)) * SG_RATE ∧
      paConcessionalTotal p = paSg p + max 0 p.extra_concessional_annual := by
  refine ⟨rfl, ?_⟩
  intro p hp
  have hsg : 0 ≤ paSg p := by
    simp only [paSg, calc_sg_annual]
    exact mul_nonneg (le_max_left _ _) (by norm_num [SG_RATE])
  refine ⟨rfl, ?_⟩
  unfold paConcessionalTotal paExtraCc
  rw [max_eq_right hp, max_eq_right (add_nonneg hsg hp)]

/-- Witness for C5 at a concrete person with nonzero inputs. -/
theorem C5_witness :
    paSg personExAlt =
      max 0 (calc_base_ote_annual personExAlt.base_salary_annual
          personExAlt.salary_includes_sg +
        (if personExAlt.uplift_sg_applies then paUplift personExAlt
          else 0)) * SG_RATE ∧
    paConcessionalTotal personExAlt =
      paSg personExAlt + max 0 personExAlt.extra_concessional_annual :=
  C5_sg_and_concessional_total.2 personExAlt (by norm_num [personExAlt])

/-- C2 (amended): in couple mode the levy is computed once on the
combined clamped test-income against the family thresholds; whenever the
combined (clamped) taxable income is positive the two allocated amounts
are proportional to the taxable-income shares and sum exactly to the
household levy, and whenever the combined taxable income is zero both
shares are zero (even though the household levy itself can then be
nonzero, which is why positivity is required for the sum property). -/
theorem C2_family_medicare_allocation :
    ∀ (children : ℤ) (paT pbT paR pbR : ℚ),
      (0 < max 0 paT + max 0 pbT →
        (calc_medicare_levy_split true children paT pbT paR pbR).1 =
          familyTotalLevy children paT pbT paR pbR *
            (max 0 paT / (max 0 paT + max 0 pbT)) ∧
        (calc_medicare_levy_split true children paT pbT paR pbR).2 =
          familyTotalLevy children paT pbT paR pbR *
            (max 0 pbT / (max 0 paT + max 0 pbT)) ∧
        (calc_medicare_levy_split true children paT pbT paR pbR).1 +
            (calc_medicare_levy_split true children paT pbT paR pbR).2 =
          familyTotalLevy children paT pbT paR pbR) ∧
      (max 0 paT + max 0 pbT = 0 →
        (calc_medicare_levy_split true children paT pbT paR pbR).1 = 0 ∧
        (calc_medicare_levy_split true children paT pbT paR pbR).2 = 0) := by
  intro children paT pbT paR pbR
  constructor
  · intro hpos
    have hne : max 0 paT + max 0 pbT ≠ 0 := ne_of_gt hpos
    have hnle : ¬ (max 0 paT + max 0 pbT ≤ 0) := not_le.mpr hpos
    simp only [calc_medicare_levy_split, familyTotalLevy, if_true,
      if_neg hnle]
    refine ⟨trivial, trivial, ?_⟩
    field_simp
    ring
  · intro hzero
    have hle : max 0 paT + max 0 pbT ≤ 0 := le_of_eq hzero
    simp only [calc_medicare_levy_split, if_true, if_pos hle]
    exact ⟨trivial, trivial⟩

/-- C2 counterexample: with both taxable incomes zero and person A
holding 50000 of fringe benefits, the household levy is in the phase-in
zone and positive, yet both allocated shares are zero, so the two
allocated amounts do not sum to the household levy. -/
theorem C2_counterexample :
    (calc_medicare_levy_split true 0 0 0 50000 0).1 +
        (calc_medicare_levy_split true 0 0 0 50000 0).2 ≠
      familyTotalLevy 0 0 0 50000 0 := by
  norm_num [calc_medicare_levy_split, familyTotalLevy,
    calc_medicare_levy_amount_from_income, famLower, famUpper, FAM_LOWER,
    FAM_UPPER, CHILD_INC_LOWER, CHILD_INC_UPPER, max_def, min_def]

/-- Witness for C2 at taxable incomes 30000 and 26000. -/
theorem C2_witness :
    (calc_medicare_levy_split true 0 30000 26000 0 0).1 =
      familyTotalLevy 0 30000 26000 0 0 *
        (max 0 30000 / (max 0 (30000 : ℚ) + max 0 26000)) ∧
    (calc_medicare_levy_split true 0 30000 26000 0 0).2 =
      familyTotalLevy 0 30000 26000 0 0 *
        (max 0 26000 / (max 0 (30000 : ℚ) + max 0 26000)) ∧
    (calc_medicare_levy_split true 0 30000 26000 0 0).1 +
        (calc_medicare_levy_split true 0 30000 26000 0 0).2 =
      familyTotalLevy 0 30000 26000 0 0 :=
  (C2_family_medicare_allocation 0 30000 26000 0 0).1
    (by norm_num [max_def])

/-- When both counterfactual taxable incomes agree with the actual ones
the two component runs coincide. -/
lemma components_eq_of_taxables_eq (hh : Household) (pa pb : Person)
    (invs : List Investment)
    (h1 : paTaxableNoLosses hh pa invs = paTaxableIncome hh pa invs)
    (h2 : pbTaxableNoLosses hh pb invs = pbTaxableIncome hh pb invs) :
    noLossComponents hh pa pb invs = actualComponents hh pa pb invs := by
  unfold noLossComponents actualComponents
  rw [h1, h2]

/-- Person A's benefit vanishes when the two component runs coincide. -/
lemma paNg_zero_of_components_eq (hh : Household) (pa pb : Person)
    (invs : List Investment)
    (h : noLossComponents hh pa pb invs = actualComponents hh pa pb invs) :
    paNgBenefit hh pa pb invs = 0 := by
  unfold paNgBenefit paCounterfactualTotalTax paTotalTax
  rw [h]
  simp

/-- Person B's benefit vanishes when the two component runs coincide. -/
lemma pbNg_zero_of_components_eq (hh : Household) (pa pb : Person)
    (invs : List Investment)
    (h : noLossComponents hh pa pb invs = actualComponents hh pa pb invs) :
    pbNgBenefit hh pa pb invs = 0 := by
  unfold pbNgBenefit pbCounterfactualTotalTax
  rw [h]
  split <;> simp

/-- C1 (amended): each person's negative-gearing benefit equals
`max 0 (counterfactual total tax - actual total tax)` and is always
nonnegative; it is zero whenever the person's net-taxable allocation is
nonnegative in single mode, and in couple mode whenever both persons'
net-taxable allocations are nonnegative (with only one of the two
allocations nonnegative the family Medicare levy can still shift, so the
single-person condition of the original claim is not sufficient in
couple mode). -/
theorem C1_ng_benefit_properties :
    ∀ (hh : Household) (pa pb : Person) (invs : List Investment),
      paNgBenefit hh pa pb invs =
        max 0 (paCounterfactualTotalTax hh pa pb invs -
          paTotalTax hh pa pb invs) ∧
      0 ≤ paNgBenefit hh pa pb invs ∧
      0 ≤ pbNgBenefit hh pa pb invs ∧
      (hh.is_couple = false →
        0 ≤ (splitsOf hh invs).a_net_taxable →
        paNgBenefit hh pa pb invs = 0) ∧
      (hh.is_couple = true →
        0 ≤ (splitsOf hh invs).a_net_taxable →
        0 ≤ (splitsOf hh invs).b_net_taxable →
        paNgBenefit hh pa pb invs = 0 ∧
          pbNgBenefit hh pa pb invs = 0) := by
  intro hh pa pb invs
  refine ⟨rfl, le_max_left _ _, ?_, ?_, ?_⟩
  · unfold pbNgBenefit
    split
    · exact le_max_left _ _
    · exact le_refl 0
  · intro hc ha
    have h1 : paTaxableNoLosses hh pa invs = paTaxableIncome hh pa invs := by
      unfold paTaxableNoLosses paTaxableIncome
      rw [max_eq_right ha]
    have hb0 : (splitsOf hh invs).b_net_taxable = 0 := by
      unfold splitsOf
      rw [hc]
      exact (splits_single_b invs).2
    have h2 : pbTaxableNoLosses hh pb invs = pbTaxableIncome hh pb invs := by
      unfold pbTaxableNoLosses pbTaxableIncome
      rw [hb0]
      norm_num
    exact paNg_zero_of_components_eq hh pa pb invs
      (components_eq_of_taxables_eq hh pa pb invs h1 h2)
  · intro hc ha hb
    have h1 : paTaxableNoLosses hh pa invs = paTaxableIncome hh pa invs := by
      unfold paTaxableNoLosses paTaxableIncome
      rw [max_eq_right ha]
    have h2 : pbTaxableNoLosses hh pb invs = pbTaxableIncome hh pb invs := by
      unfold pbTaxableNoLosses pbTaxableIncome
      rw [max_eq_right hb]
    have hcomp := components_eq_of_taxables_eq hh pa pb invs h1 h2
    exact ⟨paNg_zero_of_components_eq hh pa pb invs hcomp,
      pbNg_zero_of_components_eq hh pa pb invs hcomp⟩

/-- C1 counterexample: a couple household where person A's net-taxable
allocation is zero (nonnegative) but person B carries a 12000 loss;
suppressing B's loss moves the family Medicare levy into the phase-in
zone and person A receives a strictly positive negative-gearing benefit,
refuting the claim that the benefit is zero whenever that person's own
allocation is nonnegative. -/
theorem C1_counterexample :
    hhCoupleEx.is_couple = true ∧
    0 ≤ (splitsOf hhCoupleEx [invExLossB]).a_net_taxable ∧
    paNgBenefit hhCoupleEx personEx30k personEx26k [invExLossB] ≠ 0 := by
  refine ⟨rfl, ?_, ?_⟩
  · norm_num [splitsOf, household_investment_splits, addInv, emptySplits,
      invGross, invNetTaxable, aPct, bPct, hhCoupleEx, invExLossB,
      max_def, min_def]
  · norm_num [paNgBenefit, paCounterfactualTotalTax, paTotalTax,
      noLossComponents, actualComponents, compute_tax_components,
      paTaxableNoLosses, pbTaxableNoLosses, paTaxableIncome,
      pbTaxableIncome, paTotalSalary, pbTotalSalary, paBaseOte, pbBaseOte,
      paUplift, pbUplift, calc_base_ote_annual, calc_uplift_annual,
      splitsOf, household_investment_splits, addInv, emptySplits,
      invGross, invNetTaxable, aPct, bPct, paRfb, pbRfb,
      paConcessionalTotal, pbConcessionalTotal, paSg, pbSg, paExtraCc,
      pbExtraCc, calc_sg_annual, SG_RATE,
      calc_income_tax_resident_annual, taxBracket0, taxBracket1,
      taxBracket2, taxBracket3, taxBracket4, calc_medicare_levy_split,
      calc_medicare_levy_amount_from_income, famLower, famUpper,
      FAM_LOWER, FAM_UPPER, CHILD_INC_LOWER, CHILD_INC_UPPER, IND_LOWER,
      IND_UPPER, calc_div293_tax, hhCoupleEx, personEx30k, personEx26k,
      invExLossB, max_def, min_def]

/-- Witness for C1: in the couple household with no investments both
allocations are zero, so both benefits are zero. -/
theorem C1_witness :
    paNgBenefit hhCoupleEx personEx30k personEx26k [] = 0 ∧
    pbNgBenefit hhCoupleEx personEx30k personEx26k [] = 0 :=
  (C1_ng_benefit_properties hhCoupleEx personEx30k personEx26k
    []).2.2.2.2 rfl
    (by norm_num [splitsOf, household_investment_splits, emptySplits])
    (by norm_num [splitsOf, household_investment_splits, emptySplits])

/-- C9: the reported total tax of each person is exactly income tax plus
Medicare levy plus Division 293 tax, while the superannuation
contributions tax is the separately computed figure
`0.15 * concessional total` and is not part of the total. -/
theorem C9_total_tax_composition :
    ∀ (hh : Household) (pa pb : Person) (invs : List Investment),
      (allOutputs hh pa pb invs).pa_total_tax =
        (allOutputs hh pa pb invs).pa_income_tax +
          (allOutputs hh pa pb invs).pa_medicare +
          (allOutputs hh pa pb invs).pa_div293 ∧
      (allOutputs hh pa pb invs).pb_total_tax =
        (allOutputs hh pa pb invs).pb_income_tax +
          (allOutputs hh pa pb invs).pb_medicare +
          (allOutputs hh pa pb invs).pb_div293 ∧
      (allOutputs hh pa pb invs).pa_super_tax =
        (15 / 100) * (allOutputs hh pa pb invs).pa_concessional_total ∧
      (allOutputs hh pa pb invs).pb_super_tax =
        (15 / 100) * (allOutputs hh pa pb invs).pb_concessional_total := by
  intro hh pa pb invs
  refine ⟨rfl, ?_, rfl, ?_⟩
  · cases hc : hh.is_couple
    · simp [allOutputs, pbTotalTax, actualComponents,
        compute_tax_components, calc_medicare_levy_split, hc]
    · simp [allOutputs, pbTotalTax, hc]
  · cases hc : hh.is_couple
    · simp [allOutputs, pbSuperTax, pbConcessionalTotal, hc]
    · simp [allOutputs, pbSuperTax, hc]

/-- C10: when the couple flag is off, every person-B output is zero and
no person-B input influences any output: replacing person B's inputs
leaves the entire output record unchanged. -/
theorem C10_single_mode_isolation :
    ∀ (hh : Household) (pa pb : Person) (invs : List Investment),
      hh.is_couple = false →
      ((allOutputs hh pa pb invs).pb_total_salary = 0 ∧
        (allOutputs hh pa pb invs).pb_sg = 0 ∧
        (allOutputs hh pa pb invs).pb_concessional_total = 0 ∧
        (allOutputs hh pa pb invs).pb_income_tax = 0 ∧
        (allOutputs hh pa pb invs).pb_medicare = 0 ∧
        (allOutputs hh pa pb invs).pb_div293 = 0 ∧
        (allOutputs hh pa pb invs).pb_ng_benefit = 0) ∧
      ∀ pb' : Person,
        allOutputs hh pa pb invs = allOutputs hh pa pb' invs := by
  intro hh pa pb invs hc
  constructor
  · refine ⟨?_, ?_, ?_, ?_, ?_, ?_, ?_⟩ <;>
      simp [allOutputs, pbTotalSalary, pbSg, pbConcessionalTotal,
        actualComponents, compute_tax_components,
        calc_medicare_levy_split, pbNgBenefit, hc]
  · intro pb'
    simp only [allOutputs, actualComponents, compute_tax_components,
      noLossComponents, paTotalTax, pbTotalTax, paTaxableIncome,
      pbTaxableIncome, paTaxableNoLosses, pbTaxableNoLosses,
      paCounterfactualTotalTax, pbCounterfactualTotalTax, paNgBenefit,
      pbNgBenefit, paTotalSalary, pbTotalSalary, paBaseOte, pbBaseOte,
      paUplift, pbUplift, paSg, pbSg, paExtraCc, pbExtraCc,
      paConcessionalTotal, pbConcessionalTotal, paSuperTax, pbSuperTax,
      paRfb, pbRfb, householdTotalSalary, householdSuperTotal,
      paAfterTaxIncome, pbAfterTaxIncome, householdPay,
      householdNgBenefit, splitsOf, calc_medicare_levy_split, hc,
      Bool.false_eq_true, if_false]

/-- Witness for C10 at a concrete single household: person B's salary
output is zero and swapping person B's inputs for entirely different
ones leaves the output record unchanged. -/
theorem C10_witness :
    (allOutputs hhSingleEx personEx30k personEx26k
        [invExLossB]).pb_total_salary = 0 ∧
    allOutputs hhSingleEx personEx30k personEx26k [invExLossB] =
      allOutputs hhSingleEx personEx30k personExAlt [invExLossB] :=
  ⟨(C10_single_mode_isolation hhSingleEx personEx30k personEx26k
      [invExLossB] rfl).1.1,
    (C10_single_mode_isolation hhSingleEx personEx30k personEx26k
      [invExLossB] rfl).2 personExAlt⟩

end IncomeCalc
